import Mathlib

/-!
Verification of the LearningHub course-generation pipeline
(`src/Generator/llm.py`, class `LearningHubAgent`).

The Python code is shallowly embedded here:
* Python `str` values are Lean `String`s; the handful of string methods the
  source uses (`in`, `split`, `strip`, `replace`, f-string interpolation)
  are modelled by executable functions `py_in`, `py_split`, `py_strip`,
  `py_replace`, `py_str` below.
* `json.loads` is modelled by the executable recursive-descent parser
  `json_loads` (JSON objects keep Python dict semantics: insertion order,
  later duplicate keys overwrite earlier ones).  Numeric literals are
  modelled as integers; floating-point literals are rejected by the model
  (no code path under verification produces or consumes them).
* Dynamic (duck-typed) access on parsed JSON values is modelled in an
  `Except Err` monad: `dict.get` with a default, direct `dict[...]`
  indexing, slicing and iteration each keep Python's failure behaviour
  (AttributeError / KeyError / TypeError).
* The external collaborators (Gemini model, DDGS text search, DDGS image
  search) are universally-quantified function parameters.
-/

/-! ### Python string primitives -/

/-- Characters stripped by Python's `str.strip()` (ASCII whitespace). -/
def is_py_space (c : Char) : Bool :=
  c = ' ' || c = '\t' || c = '\n' || c = '\r' || c = Char.ofNat 11 || c = Char.ofNat 12

/-- `chars_pref pat s` : is `pat` a prefix of `s`? -/
def chars_pref : List Char → List Char → Bool
  | [], _ => true
  | _ :: _, [] => false
  | p :: ps, c :: cs => p = c && chars_pref ps cs

/-- `chars_occurs pat s` : does `pat` occur as a contiguous substring of `s`?
(Python's `pat in s`.) -/
def chars_occurs (pat : List Char) : List Char → Bool
  | [] => chars_pref pat []
  | c :: cs => chars_pref pat (c :: cs) || chars_occurs pat cs

/-- Python's `needle in hay` on strings. -/
def py_in (needle hay : String) : Bool :=
  chars_occurs needle.data hay.data

/-- Left-to-right, non-overlapping replacement of `pat` by `rep`
(the scan of Python's `str.replace`).  `fuel` bounds the recursion;
`fuel = length of the input` always suffices for a non-empty `pat`. -/
def replace_fuel (pat rep : List Char) : Nat → List Char → List Char
  | 0, s => s
  | fuel + 1, s =>
    if chars_pref pat s then
      rep ++ replace_fuel pat rep fuel (s.drop pat.length)
    else
      match s with
      | [] => []
      | c :: cs => c :: replace_fuel pat rep fuel cs

/-- Python's `s.replace(old, new)` (all occurrences, exact, case-sensitive,
non-regex).  The empty-pattern case inserts `new` at every position,
as Python does. -/
def py_replace (s old new : String) : String :=
  if old.data.isEmpty then
    ⟨new.data ++ s.data.flatMap (fun c => c :: new.data)⟩
  else
    ⟨replace_fuel old.data new.data s.data.length s.data⟩

/-- Splitting scan of Python's `str.split(sep)` for non-empty `sep`. -/
def split_fuel (sep : List Char) : Nat → List Char → List (List Char)
  | 0, s => [s]
  | fuel + 1, s =>
    if chars_pref sep s then
      [] :: split_fuel sep fuel (s.drop sep.length)
    else
      match s with
      | [] => [[]]
      | c :: cs =>
        match split_fuel sep fuel cs with
        | [] => [[c]]
        | seg :: rest => (c :: seg) :: rest

/-- Python's `s.split(sep)` for a non-empty separator (the only way the
source calls it; Python raises on an empty separator, modelled as `[s]`). -/
def py_split (s sep : String) : List String :=
  if sep.data.isEmpty then [s]
  else (split_fuel sep.data s.data.length s.data).map (fun cs => ⟨cs⟩)

/-- Python's `s.strip()`. -/
def py_strip (s : String) : String :=
  ⟨((s.data.dropWhile is_py_space).reverse.dropWhile is_py_space).reverse⟩

/-! ### JSON values and `json.loads` -/

/-- A parsed JSON value (result of `json.loads`).  Objects are
insertion-ordered key/value lists with unique keys, exactly like Python
dicts. -/
inductive Json where
  | null : Json
  | bool (b : Bool) : Json
  | num (n : Int) : Json
  | str (s : String) : Json
  | arr (xs : List Json) : Json
  | obj (kvs : List (String × Json)) : Json

/-- JSON insignificant whitespace. -/
def is_json_ws (c : Char) : Bool :=
  c = ' ' || c = '\t' || c = '\n' || c = '\r'

def skip_ws (s : List Char) : List Char := s.dropWhile is_json_ws

def lbrace_char : Char := Char.ofNat 123
def rbrace_char : Char := Char.ofNat 125

/-- Body of a JSON string literal (after the opening quote), with the
common escapes (`\u` escapes are outside the model). -/
def parse_str_chars : List Char → Except String (List Char × List Char)
  | [] => .error "unterminated string"
  | c :: cs =>
    if c = '"' then .ok ([], cs)
    else if c = '\\' then
      match cs with
      | [] => .error "truncated escape"
      | e :: rest =>
        let esc : Option Char :=
          if e = '"' then some '"'
          else if e = '\\' then some '\\'
          else if e = '/' then some '/'
          else if e = 'n' then some '\n'
          else if e = 't' then some '\t'
          else if e = 'r' then some '\r'
          else if e = 'b' then some (Char.ofNat 8)
          else if e = 'f' then some (Char.ofNat 12)
          else none
        match esc with
        | none => .error "unsupported escape"
        | some ch =>
          match parse_str_chars rest with
          | .error m => .error m
          | .ok (out, rem) => .ok (ch :: out, rem)
    else
      match parse_str_chars cs with
      | .error m => .error m
      | .ok (out, rem) => .ok (c :: out, rem)

def take_digits : List Char → (List Nat × List Char)
  | [] => ([], [])
  | c :: cs =>
    if c.isDigit then
      let (ds, r) := take_digits cs
      ((c.toNat - 48) :: ds, r)
    else ([], c :: cs)

def digits_to_nat (ds : List Nat) : Nat := ds.foldl (fun a d => a * 10 + d) 0

/-- JSON integer literal.  A following `.`, `e` or `E` would start a float,
which the model rejects (unused by the code under verification). -/
def parse_int (s : List Char) : Except String (Int × List Char) :=
  let (neg, s1) :=
    match s with
    | c :: cs => if c = '-' then (true, cs) else (false, s)
    | [] => (false, s)
  match take_digits s1 with
  | ([], _) => .error "invalid number"
  | (ds, rest) =>
    match rest with
    | c :: _ =>
      if c = '.' || c = 'e' || c = 'E' then .error "float literals outside model"
      else .ok ((if neg then -(digits_to_nat ds : Int) else (digits_to_nat ds : Int)), rest)
    | [] => .ok ((if neg then -(digits_to_nat ds : Int) else (digits_to_nat ds : Int)), rest)

/-- Python-dict insertion: overwrite an existing key in place, else append. -/
def dict_insert (kvs : List (String × Json)) (k : String) (v : Json) :
    List (String × Json) :=
  match kvs with
  | [] => [(k, v)]
  | (k0, v0) :: rest =>
    if k0 = k then (k0, v) :: rest else (k0, v0) :: dict_insert rest k v

def dict_of_pairs (ps : List (String × Json)) : List (String × Json) :=
  ps.foldl (fun acc kv => dict_insert acc kv.1 kv.2) []

/-- Remaining elements of an array after the first (`, v`* then `]`). -/
def parse_arr_tail (pv : List Char → Except String (Json × List Char)) :
    Nat → List Char → Except String (List Json × List Char)
  | 0, _ => .error "fuel exhausted"
  | fuel + 1, s =>
    match skip_ws s with
    | [] => .error "unterminated array"
    | c :: cs =>
      if c = ']' then .ok ([], cs)
      else if c = ',' then
        match pv cs with
        | .error m => .error m
        | .ok (j, rest) =>
          match parse_arr_tail pv fuel rest with
          | .error m => .error m
          | .ok (js, rem) => .ok (j :: js, rem)
      else .error "expected comma or close bracket"

/-- One `"key": value` pair of an object. -/
def parse_pair (pv : List Char → Except String (Json × List Char))
    (s : List Char) : Except String ((String × Json) × List Char) :=
  match skip_ws s with
  | [] => .error "unterminated object"
  | c :: cs =>
    if c = '"' then
      match parse_str_chars cs with
      | .error m => .error m
      | .ok (key, rest) =>
        match skip_ws rest with
        | [] => .error "unterminated object"
        | c2 :: cs2 =>
          if c2 = ':' then
            match pv cs2 with
            | .error m => .error m
            | .ok (j, rem) => .ok ((⟨key⟩, j), rem)
          else .error "expected colon"
    else .error "expected property name"

/-- Remaining pairs of an object after the first (`, pair`* then close). -/
def parse_obj_tail (pv : List Char → Except String (Json × List Char)) :
    Nat → List Char → Except String (List (String × Json) × List Char)
  | 0, _ => .error "fuel exhausted"
  | fuel + 1, s =>
    match skip_ws s with
    | [] => .error "unterminated object"
    | c :: cs =>
      if c = rbrace_char then .ok ([], cs)
      else if c = ',' then
        match parse_pair pv cs with
        | .error m => .error m
        | .ok (kv, rest) =>
          match parse_obj_tail pv fuel rest with
          | .error m => .error m
          | .ok (kvs, rem) => .ok (kv :: kvs, rem)
      else .error "expected comma or close brace"

/-- Recursive-descent JSON value parser.  `fuel` bounds nesting depth;
`input length + 1` always suffices. -/
def parse_val : Nat → List Char → Except String (Json × List Char)
  | 0, _ => .error "fuel exhausted"
  | fuel + 1, s =>
    match skip_ws s with
    | [] => .error "unexpected end of input"
    | c :: cs =>
      if c = 'n' then
        match cs with
        | 'u' :: 'l' :: 'l' :: rest => .ok (Json.null, rest)
        | _ => .error "invalid literal"
      else if c = 't' then
        match cs with
        | 'r' :: 'u' :: 'e' :: rest => .ok (Json.bool true, rest)
        | _ => .error "invalid literal"
      else if c = 'f' then
        match cs with
        | 'a' :: 'l' :: 's' :: 'e' :: rest => .ok (Json.bool false, rest)
        | _ => .error "invalid literal"
      else if c = '"' then
        match parse_str_chars cs with
        | .error m => .error m
        | .ok (out, rest) => .ok (Json.str ⟨out⟩, rest)
      else if c = '[' then
        match skip_ws cs with
        | [] => .error "unterminated array"
        | c2 :: cs2 =>
          if c2 = ']' then .ok (Json.arr [], cs2)
          else
            match parse_val fuel cs with
            | .error m => .error m
            | .ok (j, rest) =>
              match parse_arr_tail (parse_val fuel) (rest.length + 1) rest with
              | .error m => .error m
              | .ok (js, rem) => .ok (Json.arr (j :: js), rem)
      else if c = lbrace_char then
        match skip_ws cs with
        | [] => .error "unterminated object"
        | c2 :: cs2 =>
          if c2 = rbrace_char then .ok (Json.obj [], cs2)
          else
            match parse_pair (parse_val fuel) cs with
            | .error m => .error m
            | .ok (kv, rest) =>
              match parse_obj_tail (parse_val fuel) (rest.length + 1) rest with
              | .error m => .error m
              | .ok (kvs, rem) => .ok (Json.obj (dict_of_pairs (kv :: kvs)), rem)
      else if c = '-' || c.isDigit then
        match parse_int (c :: cs) with
        | .error m => .error m
        | .ok (n, rest) => .ok (Json.num n, rest)
      else .error "unexpected character"

/-- Python's `json.loads`: parse one JSON document, reject trailing data. -/
def json_loads (s : String) : Except String Json :=
  match parse_val (s.length + 1) s.data with
  | .error m => .error m
  | .ok (j, rest) =>
    match skip_ws rest with
    | [] => .ok j
    | _ => .error "extra data"

/-! ### Dynamic field access on parsed JSON (Python duck typing) -/

/-- The Python exceptions the pipeline can raise, plus the spec's
`MalformedOutlineError` (an uncaught `json.JSONDecodeError` from the
outline parse). -/
inductive Err where
  | malformedOutline (msg : String)
  | keyError (k : String)
  | typeError
  | attributeError
deriving DecidableEq

/-- First-match association lookup (keys are unique in parsed objects). -/
def jLookup : List (String × Json) → String → Option Json
  | [], _ => none
  | (k, v) :: rest, key => if k = key then some v else jLookup rest key

def jLookupD (kvs : List (String × Json)) (key : String) (d : Json) : Json :=
  (jLookup kvs key).getD d

/-- Python `value.get(key, default)`: `AttributeError` unless `value` is a
dict. -/
def py_dict_getD (j : Json) (key : String) (d : Json) : Except Err Json :=
  match j with
  | Json.obj kvs => .ok (jLookupD kvs key d)
  | _ => .error Err.attributeError

/-- Python `value[key]` with a string key: `KeyError` on a dict missing the
key, `TypeError` on any non-dict. -/
def py_dict_index (j : Json) (key : String) : Except Err Json :=
  match j with
  | Json.obj kvs =>
    match jLookup kvs key with
    | some v => .ok v
    | none => .error (Err.keyError key)
  | _ => .error Err.typeError

/-- Python `value[:n]` followed by iteration: lists slice to lists,
strings slice to their characters, everything else raises `TypeError`. -/
def py_slice_iter (j : Json) (n : Nat) : Except Err (List Json) :=
  match j with
  | Json.arr xs => .ok (xs.take n)
  | Json.str s => .ok ((s.data.take n).map (fun c => Json.str ⟨[c]⟩))
  | _ => .error Err.typeError

/-- Python iteration over a value: lists yield elements, strings yield
characters, dicts yield their keys, everything else raises `TypeError`. -/
def py_iter (j : Json) : Except Err (List Json) :=
  match j with
  | Json.arr xs => .ok xs
  | Json.str s => .ok (s.data.map (fun c => Json.str ⟨[c]⟩))
  | Json.obj kvs => .ok (kvs.map (fun kv => Json.str kv.1))
  | _ => .error Err.typeError

/-- Python `str(None)` for optional strings (f-string interpolation of a
value that may be `None`). -/
def py_str_opt : Option String → String
  | none => "None"
  | some s => s

/-- `repr` of a string in Python container printing. -/
def py_quote (s : String) : String := "'" ++ s ++ "'"

/-- Python `str()` (`reprm = false`) or `repr()` (`reprm = true`) of a
parsed-JSON value, as interpolated by f-strings; container elements print
with `repr`, so strings inside containers get quotes.  `fuel` bounds
container nesting (1000 in the wrapper, far beyond any value the pipeline
meets); atoms never consume fuel. -/
def py_str_fuel : Nat → Bool → Json → String
  | _, reprm, Json.str s => if reprm then py_quote s else s
  | _, _, Json.num n => toString n
  | _, _, Json.bool true => "True"
  | _, _, Json.bool false => "False"
  | _, _, Json.null => "None"
  | 0, _, _ => ""
  | fuel + 1, _, Json.arr xs =>
    "[" ++ String.intercalate ", " (xs.map (py_str_fuel fuel true)) ++ "]"
  | fuel + 1, _, Json.obj kvs =>
    "\x7b" ++
      String.intercalate ", "
        (kvs.map (fun kv => py_quote kv.1 ++ ": " ++ py_str_fuel fuel true kv.2)) ++
    "\x7d"

def py_str (j : Json) : String := py_str_fuel 1000 false j

example : py_str (Json.str "x") = "x" := rfl
example : py_str (Json.arr [Json.str "a", Json.num 2]) = "['a', 2]" := rfl

example : json_loads "\x7b\"a\": 1\x7d" = .ok (Json.obj [("a", Json.num 1)]) := rfl
example : json_loads " [1, \"x\", null, true, -2] " =
    .ok (Json.arr [Json.num 1, Json.str "x", Json.null, Json.bool true, Json.num (-2)]) := rfl
example : json_loads "garbage" = .error "unexpected character" := rfl
example : py_replace "a-b-c" "-" "+" = "a+b+c" := rfl
example : py_split "a``b``c" "``" = ["a", "b", "c"] := rfl
example : py_strip "  x y\n" = "x y" := rfl
example : py_in "``" "a``b" = true := rfl

/-! ### The outline schema and its validation (llm.py lines 31-52, 81-88) -/

/-- The JSON Schema literal declared in `generate_headlines`. -/
def outline_schema : Json :=
  Json.obj [
    ("type", Json.str "object"),
    ("properties", Json.obj [
      ("main_headline", Json.obj [("type", Json.str "string")]),
      ("topics", Json.obj [
        ("type", Json.str "array"),
        ("items", Json.obj [
          ("type", Json.str "object"),
          ("properties", Json.obj [
            ("headline", Json.obj [("type", Json.str "string")]),
            ("subtopics", Json.obj [
              ("type", Json.str "array"),
              ("items", Json.obj [("type", Json.str "string")])])]),
          ("required", Json.arr [Json.str "headline", Json.str "subtopics"])])])]),
    ("required", Json.arr [Json.str "main_headline", Json.str "topics"])]

def is_str_json : Json → Bool
  | Json.str _ => true
  | _ => false

/-- `jsonschema.validate` outcome for one element of `topics` under
`outline_schema`: an object whose required `headline` is a string and whose
required `subtopics` is an array of strings. -/
def conforms_topic (j : Json) : Bool :=
  match j with
  | Json.obj kvs =>
    (match jLookup kvs "headline" with
     | some (Json.str _) => true
     | _ => false) &&
    (match jLookup kvs "subtopics" with
     | some (Json.arr xs) => xs.all is_str_json
     | _ => false)
  | _ => false

/-- `jsonschema.validate(instance, schema)` success for `outline_schema`:
an object whose required `main_headline` is a string and whose required
`topics` is an array of conforming topic objects.  (Extra keys are allowed,
as jsonschema does.) -/
def conforms_outline (j : Json) : Bool :=
  match j with
  | Json.obj kvs =>
    (match jLookup kvs "main_headline" with
     | some (Json.str _) => true
     | _ => false) &&
    (match jLookup kvs "topics" with
     | some (Json.arr ts) => ts.all conforms_topic
     | _ => false)
  | _ => false

/-! ### `json.dumps(schema, indent=2)` and the outline prompt -/

def dumps_str (s : String) : String :=
  "\"" ++
    (⟨s.data.flatMap (fun c =>
        if c = '"' then ['\\', '"']
        else if c = '\\' then ['\\', '\\']
        else if c = '\n' then ['\\', 'n']
        else [c])⟩ : String) ++
  "\""

def spaces (n : Nat) : String := ⟨List.replicate n ' '⟩

/-- `json.dumps(j, indent=2)`, fuel-bounded on nesting depth. -/
def dumps_fuel : Nat → Nat → Json → String
  | _, _, Json.null => "null"
  | _, _, Json.bool true => "true"
  | _, _, Json.bool false => "false"
  | _, _, Json.num n => toString n
  | _, _, Json.str s => dumps_str s
  | 0, _, _ => ""
  | _ + 1, _, Json.arr [] => "[]"
  | fuel + 1, ind, Json.arr xs =>
    "[\n" ++
      String.intercalate ",\n"
        (xs.map (fun x => spaces (ind + 2) ++ dumps_fuel fuel (ind + 2) x)) ++
    "\n" ++ spaces ind ++ "]"
  | _ + 1, _, Json.obj [] => "\x7b\x7d"
  | fuel + 1, ind, Json.obj kvs =>
    "\x7b\n" ++
      String.intercalate ",\n"
        (kvs.map (fun kv =>
          spaces (ind + 2) ++ dumps_str kv.1 ++ ": " ++ dumps_fuel fuel (ind + 2) kv.2)) ++
    "\n" ++ spaces ind ++ "\x7d"

def py_json_dumps_indent2 (j : Json) : String := dumps_fuel 1000 0 j

/-- The outline-generation prompt (llm.py lines 54-62). -/
def outline_prompt (query : String) : String :=
  "\n        Create a comprehensive course syllabus with 5-7 main headlines \n        for a learning module about: \"" ++
  query ++
  "\".\n        \n        For each headline, provide 2-3 sub-topics that should be covered.\n        Create a detailed outline with a main headline, multiple topics, and related subtopics. The number of topics should be determined based on what makes sense for the subject matter.\n        Format your response as a JSON object that strictly follows this JSON Schema:\n        " ++
  py_json_dumps_indent2 outline_schema ++ " \n        "

/-! ### Outline generation: response parsing and soft validation
(llm.py lines 64-88) -/

def except_is_ok {ε α : Type} : Except ε α → Bool
  | .ok _ => true
  | .error _ => false

/-- `json.loads` with its decode error as the spec's
`MalformedOutlineError`. -/
def json_loads_err (s : String) : Except Err Json :=
  match json_loads s with
  | .ok j => .ok j
  | .error m => .error (Err.malformedOutline m)

/-- The single fallback candidate `json_str` the code extracts when the
raw response is not JSON (llm.py lines 72-78): the interior of the
first ```json fence if one exists, else the interior of the first ```
fence if one exists, else the raw text. -/
def extract_candidate (text : String) : String :=
  if py_in "```json" text then
    py_strip ((py_split ((py_split text "```json").getD 1 "") "```").getD 0 "")
  else if py_in "```" text then
    py_strip ((py_split ((py_split text "```").getD 1 "") "```").getD 0 "")
  else text

/-- Response parsing exactly as llm.py lines 66-79: try the raw text,
and on a decode error make one parse attempt on the extracted candidate.
A failure of that second attempt propagates. -/
def parse_response (text : String) : Except Err Json :=
  match json_loads_err text with
  | .ok json_data => .ok json_data
  | .error _ => json_loads_err (extract_candidate text)

/-- Modelled from the spec (section 4.2), for comparison with
`parse_response`: four attempts in order — (a) the raw text, (b) the
interior of the fenced block tagged as JSON, (c) the interior of any
fenced block, (d) the raw text as a last resort — where each attempt's
parse failure falls through to the next, the first successful parse wins,
and only if every attempt fails does the generator fail. -/
def parse_response_spec (text : String) : Except Err Json :=
  match json_loads_err text with
  | .ok j => .ok j
  | .error _ =>
    match
      (if py_in "```json" text then
        json_loads_err (py_strip ((py_split ((py_split text "```json").getD 1 "") "```").getD 0 ""))
      else .error (Err.malformedOutline "no fenced json block")) with
    | .ok j => .ok j
    | .error _ =>
      match
        (if py_in "```" text then
          json_loads_err (py_strip ((py_split ((py_split text "```").getD 1 "") "```").getD 0 ""))
        else .error (Err.malformedOutline "no fenced block")) with
      | .ok j => .ok j
      | .error _ => json_loads_err text

/-- `generate_headlines` (llm.py lines 27-88) with the language model as
an explicit collaborator `gen`: build the prompt, parse the response,
run the soft schema validation (its outcome is only logged), and return
the parsed value regardless of validation. -/
def generate_headlines (gen : String → String) (query : String) : Except Err Json :=
  match parse_response (gen (outline_prompt query)) with
  | .error e => .error e
  | .ok json_data =>
    let _validated := conforms_outline json_data
    .ok json_data

/-- Input on which the code's single-candidate fallback and the spec's
four-attempt chain disagree: the ```json fence holds garbage while an
earlier plain fence holds valid JSON. -/
def c1_cex_text : String := "``` \x7b\"a\": 1\x7d ``` ```json garbage ```"

example : except_is_ok (parse_response c1_cex_text) = false := rfl
example : parse_response_spec c1_cex_text = .ok (Json.obj [("a", Json.num 1)]) := rfl
example : extract_candidate c1_cex_text = "garbage" := rfl
example : conforms_outline (Json.obj [("main_headline", Json.str "X"), ("topics", Json.arr [])]) = true := rfl
example : conforms_outline (Json.obj [("x", Json.num 1)]) = false := rfl

/-! ### Search-result records and the pipeline data model -/

/-- One raw DDGS text-search result: a dict with `title`/`body`/`href`
keys, any of which may be absent. -/
structure RawText where
  title : Option String
  body : Option String
  href : Option String
deriving DecidableEq

/-- One raw DDGS image-search result: a dict with `title`/`image`/`url`
keys, any of which may be absent. -/
structure RawImage where
  title : Option String
  image : Option String
  url : Option String
deriving DecidableEq

/-- The normalized image dict built by `retrieve_images`
(llm.py lines 134-139): `id` and defaulted `title`/`source` are always
present; `url` is whatever `img.get("image")` returned, possibly `None`. -/
structure ImageRecord where
  id : Nat
  url : Option String
  title : String
  source : String
deriving DecidableEq

/-- The output dict of `process_query` (llm.py lines 227-232). -/
structure CourseOutput where
  query : String
  headlines : Json
  course_content : String
  images : List ImageRecord

/-! ### Evidence retrieval: `web_search` (llm.py lines 90-114) -/

/-- The loop of llm.py lines 100-104: one text search per topic, query
`f"\x7bquery\x7d \x7bheadline\x7d"` capped at 2 results, batches
concatenated in topic order. -/
def topic_batches (ts : String → Nat → List RawText) (query : String) :
    List Json → Except Err (List RawText)
  | [] => .ok []
  | topic :: rest =>
    match py_dict_getD topic "headline" (Json.str "") with
    | .error e => .error e
    | .ok headline =>
      let specific_query := query ++ " " ++ py_str headline
      let headline_results := ts specific_query 2
      match topic_batches ts query rest with
      | .error e => .error e
      | .ok more => .ok (headline_results ++ more)

/-- llm.py lines 93-104: the concatenated `search_results` before
deduplication — the main query capped at 5 results, then the batches for
the first 3 topics of `headlines.get("topics", [])`. -/
def web_search_raw (ts : String → Nat → List RawText) (query : String)
    (headlines : Json) : Except Err (List RawText) :=
  let main_results := ts query 5
  match py_dict_getD headlines "topics" (Json.arr []) with
  | .error e => .error e
  | .ok topicsJ =>
    match py_slice_iter topicsJ 3 with
    | .error e => .error e
    | .ok topics =>
      match topic_batches ts query topics with
      | .error e => .error e
      | .ok batches => .ok (main_results ++ batches)

/-- The dedup loop of llm.py lines 106-112 with its `seen_urls` set:
keep a result iff its `.get("href")` value was not seen before. -/
def dedup_href_aux (seen : List (Option String)) : List RawText → List RawText
  | [] => []
  | result :: rest =>
    if result.href ∈ seen then dedup_href_aux seen rest
    else result :: dedup_href_aux (result.href :: seen) rest

def dedup_href (search_results : List RawText) : List RawText :=
  dedup_href_aux [] search_results

/-- llm.py lines 106-114: deduplicate by href, then `[:10]`. -/
def web_search_post (search_results : List RawText) : List RawText :=
  (dedup_href search_results).take 10

/-- `web_search` (llm.py lines 90-114) with the DDGS text search as an
explicit collaborator `ts`. -/
def web_search (ts : String → Nat → List RawText) (query : String)
    (headlines : Json) : Except Err (List RawText) :=
  match web_search_raw ts query headlines with
  | .error e => .error e
  | .ok search_results => .ok (web_search_post search_results)

/-! ### Image retrieval: `retrieve_images` (llm.py lines 116-142) -/

/-- The loop of llm.py lines 126-130: one image search per topic, query
`f"\x7bheadline\x7d \x7bquery\x7d illustration"` capped at 1 result. -/
def image_batches (isrch : String → Nat → List RawImage) (query : String) :
    List Json → Except Err (List RawImage)
  | [] => .ok []
  | topic :: rest =>
    match py_dict_getD topic "headline" (Json.str "") with
    | .error e => .error e
    | .ok headline =>
      let topic_query := py_str headline ++ " " ++ query ++ " illustration"
      let topic_images := isrch topic_query 1
      match image_batches isrch query rest with
      | .error e => .error e
      | .ok more => .ok (topic_images ++ more)

/-- llm.py lines 132-141: project the first 4 concatenated raw results,
ids assigned from `enumerate` plus one, `title`/`source` defaulted,
`url` taken verbatim from `img.get("image")`. -/
def process_images (query : String) (main_images : List RawImage) :
    List ImageRecord :=
  (main_images.take 4).enum.map (fun p =>
    { id := p.1 + 1
      url := p.2.image
      title := p.2.title.getD ("Image related to " ++ query)
      source := p.2.url.getD "" })

/-- `retrieve_images` (llm.py lines 116-142) with the DDGS image search as
an explicit collaborator `isrch`.  Note the direct `headlines["main_headline"]`
indexing on lines 118 and 122, in contrast with the `.get` access used for
every other field. -/
def retrieve_images (isrch : String → Nat → List RawImage) (query : String)
    (headlines : Json) : Except Err (List ImageRecord) :=
  match py_dict_index headlines "main_headline" with
  | .error e => .error e
  | .ok mh =>
    let main_query := py_str mh ++ " diagram educational"
    let main0 := isrch main_query 2
    match py_dict_getD headlines "topics" (Json.arr []) with
    | .error e => .error e
    | .ok topicsJ =>
      match py_slice_iter topicsJ 2 with
      | .error e => .error e
      | .ok topics =>
        match image_batches isrch query topics with
        | .error e => .error e
        | .ok extra => .ok (process_images query (main0 ++ extra))

/-! ### Content synthesis: `generate_course_content` (llm.py lines 144-208) -/

/-- One numbered SOURCE block (llm.py lines 149-152). -/
def source_block (i : Nat) (result : RawText) : String :=
  "--- SOURCE " ++ toString (i + 1) ++ " ---\n" ++
  "Title: " ++ result.title.getD "No Title" ++ "\n" ++
  "Content: " ++ result.body.getD "" ++ "\n" ++
  "URL: " ++ result.href.getD ""

def search_content (search_results : List RawText) : String :=
  String.intercalate "\n\n" (search_results.enum.map (fun p => source_block p.1 p.2))

/-- llm.py lines 157-160. -/
def image_content (images : List ImageRecord) : String :=
  String.intercalate "\n" (images.map (fun img =>
    "IMAGE " ++ toString img.id ++ ": " ++ img.title ++ " (from " ++ img.source ++ ")"))

/-- Inner loop of llm.py lines 166-167 (`j` is the `enumerate` index). -/
def subtopic_lines (i : Nat) : Nat → List Json → String
  | _, [] => ""
  | j, subtopic :: rest =>
    "  - Subtopic " ++ toString (i + 1) ++ "." ++ toString (j + 1) ++ ": " ++
      py_str subtopic ++ "\n" ++ subtopic_lines i (j + 1) rest

/-- Outer loop of llm.py lines 164-167 (`i` is the `enumerate` index). -/
def topic_lines : Nat → List Json → Except Err String
  | _, [] => .ok ""
  | i, topic :: rest =>
    match py_dict_getD topic "headline" (Json.str "") with
    | .error e => .error e
    | .ok hl =>
      match py_dict_getD topic "subtopics" (Json.arr []) with
      | .error e => .error e
      | .ok subJ =>
        match py_iter subJ with
        | .error e => .error e
        | .ok subs =>
          match topic_lines (i + 1) rest with
          | .error e => .error e
          | .ok more =>
            .ok ("Topic " ++ toString (i + 1) ++ ": " ++ py_str hl ++ "\n" ++
              subtopic_lines i 0 subs ++ more)

/-- llm.py lines 163-167: the syllabus rendering. -/
def headlines_content (query : String) (headlines : Json) : Except Err String :=
  match py_dict_getD headlines "main_headline" (Json.str query) with
  | .error e => .error e
  | .ok mh =>
    match py_dict_getD headlines "topics" (Json.arr []) with
    | .error e => .error e
    | .ok topicsJ =>
      match py_iter topicsJ with
      | .error e => .error e
      | .ok topics =>
        match topic_lines 0 topics with
        | .error e => .error e
        | .ok tls => .ok ("Course Title: " ++ py_str mh ++ "\n\n" ++ tls)

/-- The synthesis prompt template (llm.py lines 170-195). -/
def synthesis_prompt (query hc sc ic : String) : String :=
  "\n        Create a comprehensive educational course about \"" ++ query ++
  "\".\n        \n        Use the provided course structure, web search results, and image descriptions to create \n        a well-formatted, educational course.\n        \n        COURSE OUTLINE:\n        " ++
  hc ++
  "\n        \n        WEB SEARCH RESULTS:\n        " ++
  sc ++
  "\n        \n        AVAILABLE IMAGES:\n        " ++
  ic ++
  "\n        \n        Please create a well-structured course following these guidelines:\n        1. Begin with an engaging introduction to the topic\n        2. Follow the provided course outline structure\n        3. For each main topic:\n           - Provide clear explanations using information from the search results\n           - Reference relevant images where appropriate using: ![IMAGE X](image_url_X)\n           - Include examples, facts, and interesting information\n        4. End with a summary and suggestions for further learning\n        \n        Format the content in Markdown with proper headings and sections.\n        "

/-- The literal placeholder for an image id (llm.py line 204). -/
def image_placeholder (img : ImageRecord) : String :=
  "![IMAGE " ++ toString img.id ++ "](image_url_" ++ toString img.id ++ ")"

/-- The resolved Markdown reference (llm.py line 205); a `None` url prints
as the text `None`, as Python f-strings do. -/
def image_markdown (img : ImageRecord) : String :=
  "![" ++ img.title ++ "](" ++ py_str_opt img.url ++ ")"

/-- The post-processing loop of llm.py lines 200-206: for each ImageRecord
in sequence order, replace every occurrence of its placeholder. -/
def substitute_images (course_content : String) (images : List ImageRecord) :
    String :=
  images.foldl
    (fun c img => py_replace c (image_placeholder img) (image_markdown img))
    course_content

/-- `generate_course_content` (llm.py lines 144-208) with the language
model as an explicit collaborator `gen`. -/
def generate_course_content (gen : String → String) (query : String)
    (headlines : Json) (search_results : List RawText)
    (images : List ImageRecord) : Except Err String :=
  let sc := search_content search_results
  let ic := image_content images
  match headlines_content query headlines with
  | .error e => .error e
  | .ok hc =>
    let prompt := synthesis_prompt query hc sc ic
    let course_content := gen prompt
    .ok (substitute_images course_content images)

/-! ### The orchestrator: `process_query` (llm.py lines 210-235) -/

def process_query (gen : String → String) (ts : String → Nat → List RawText)
    (isrch : String → Nat → List RawImage) (query : String) :
    Except Err CourseOutput :=
  match generate_headlines gen query with
  | .error e => .error e
  | .ok headlines =>
    match web_search ts query headlines with
    | .error e => .error e
    | .ok search_results =>
      match retrieve_images isrch query headlines with
      | .error e => .error e
      | .ok images =>
        match generate_course_content gen query headlines search_results images with
        | .error e => .error e
        | .ok course_content =>
          .ok { query := query, headlines := headlines,
                course_content := course_content, images := images }

/-! ### Helper lemmas: `py_replace` on placeholder-free content -/

theorem replace_fuel_no_occur (pat rep : List Char) :
    ∀ (fuel : Nat) (s : List Char), chars_occurs pat s = false →
      replace_fuel pat rep fuel s = s := by
  intro fuel
  induction fuel with
  | zero => intro s _; rfl
  | succ f ih =>
    intro s h
    cases s with
    | nil =>
      unfold chars_occurs at h
      simp only [replace_fuel, h]
      rfl
    | cons c cs =>
      unfold chars_occurs at h
      rw [Bool.or_eq_false_iff] at h
      simp only [replace_fuel, h.1]
      simp only [Bool.false_eq_true, if_false]
      rw [ih cs h.2]

theorem py_replace_no_occur (s old new : String) (hne : old.data ≠ [])
    (h : py_in old s = false) : py_replace s old new = s := by
  unfold py_in at h
  unfold py_replace
  rw [if_neg (by intro hE; exact hne (List.isEmpty_iff.mp hE))]
  cases s with
  | mk data => exact congrArg String.mk (replace_fuel_no_occur old.data new.data data.length data h)

theorem substitute_images_no_occur :
    ∀ (images : List ImageRecord) (content : String),
      (∀ img ∈ images, py_in (image_placeholder img) content = false) →
      substitute_images content images = content := by
  intro images
  induction images with
  | nil => intro c _; rfl
  | cons img rest ih =>
    intro c h
    have hemp : (image_placeholder img).data ≠ [] := by
      unfold image_placeholder
      have h8 : ("![IMAGE " : String).data = ['!', '[', 'I', 'M', 'A', 'G', 'E', ' '] := rfl
      simp [String.data_append, h8]
    unfold substitute_images
    simp only [List.foldl_cons]
    rw [py_replace_no_occur c (image_placeholder img) (image_markdown img) hemp
      (h img (by simp))]
    exact ih c (fun i hi => h i (by simp [hi]))

/-- C3.  After content synthesis, each ImageRecord's literal placeholder
`![IMAGE id](image_url_id)` is replaced by `![title](url)` by exact,
case-sensitive, non-regex matching applied globally across all
occurrences, and a placeholder whose id has no corresponding ImageRecord
is left unchanged (not an error): (i) content containing no passed
record's placeholder is returned verbatim; (ii) on a concrete content the
id-1 placeholder is replaced at both occurrences while the id-9
placeholder and a lowercase near-miss are left byte-for-byte intact. -/
theorem c3_placeholder_substitution :
    (∀ (content : String) (images : List ImageRecord),
        (∀ img ∈ images, py_in (image_placeholder img) content = false) →
        substitute_images content images = content)
    ∧ substitute_images
        "A ![IMAGE 1](image_url_1) B ![IMAGE 1](image_url_1) C ![IMAGE 9](image_url_9) D ![image 1](image_url_1)"
        [{ id := 1, url := some "http://a/b.png", title := "Cat", source := "" }]
      = "A ![Cat](http://a/b.png) B ![Cat](http://a/b.png) C ![IMAGE 9](image_url_9) D ![image 1](image_url_1)" :=
  ⟨fun content images h => substitute_images_no_occur images content h, rfl⟩

/-- Witness for C3: the unmatched-placeholder clause applied at a concrete
content and image sequence. -/
theorem c3_placeholder_substitution_witness :
    substitute_images "see ![IMAGE 2](image_url_2) maybe"
        [{ id := 1, url := some "u", title := "T", source := "" }]
      = "see ![IMAGE 2](image_url_2) maybe" :=
  c3_placeholder_substitution.1 _ _ (by decide)

/-! ### Helper lemmas: the href deduplication loop -/

theorem dedup_aux_sublist :
    ∀ (rs : List RawText) (seen : List (Option String)),
      (dedup_href_aux seen rs).Sublist rs := by
  intro rs
  induction rs with
  | nil => intro seen; simp [dedup_href_aux]
  | cons r rest ih =>
    intro seen
    unfold dedup_href_aux
    by_cases h : r.href ∈ seen
    · simp only [h, if_true]
      exact (ih seen).cons r
    · simp only [h, if_false]
      exact (ih (r.href :: seen)).cons₂ r

theorem dedup_aux_not_seen :
    ∀ (rs : List RawText) (seen : List (Option String)) (r : RawText),
      r ∈ dedup_href_aux seen rs → r.href ∉ seen := by
  intro rs
  induction rs with
  | nil => intro seen r h; simp [dedup_href_aux] at h
  | cons r0 rest ih =>
    intro seen r h
    unfold dedup_href_aux at h
    by_cases h0 : r0.href ∈ seen
    · simp only [h0, if_true] at h
      exact ih seen r h
    · simp only [h0, if_false, List.mem_cons] at h
      cases h with
      | inl he => rw [he]; exact h0
      | inr hm =>
        have := ih (r0.href :: seen) r hm
        intro hc
        exact this (List.mem_cons_of_mem _ hc)

theorem dedup_aux_find :
    ∀ (rs : List RawText) (seen : List (Option String)) (r : RawText),
      r ∈ dedup_href_aux seen rs →
      rs.find? (fun x => decide (x.href = r.href)) = some r := by
  intro rs
  induction rs with
  | nil => intro seen r h; simp [dedup_href_aux] at h
  | cons r0 rest ih =>
    intro seen r h
    unfold dedup_href_aux at h
    by_cases h0 : r0.href ∈ seen
    · simp only [h0, if_true] at h
      have hne : r.href ≠ r0.href := by
        intro he
        exact (dedup_aux_not_seen rest seen r h) (he ▸ h0)
      rw [List.find?_cons_of_neg _ (by simp [hne.symm])]
      exact ih seen r h
    · simp only [h0, if_false, List.mem_cons] at h
      cases h with
      | inl he =>
        rw [he]
        rw [List.find?_cons_of_pos _ (by simp)]
      | inr hm =>
        have hns := dedup_aux_not_seen rest (r0.href :: seen) r hm
        have hne : r.href ≠ r0.href := by
          intro he
          exact hns (he ▸ List.mem_cons_self _ _)
        rw [List.find?_cons_of_neg _ (by simp [hne.symm])]
        exact ih (r0.href :: seen) r hm

theorem dedup_aux_nodup :
    ∀ (rs : List RawText) (seen : List (Option String)),
      ((dedup_href_aux seen rs).map RawText.href).Nodup := by
  intro rs
  induction rs with
  | nil => intro seen; simp [dedup_href_aux]
  | cons r0 rest ih =>
    intro seen
    unfold dedup_href_aux
    by_cases h0 : r0.href ∈ seen
    · simp only [h0, if_true]
      exact ih seen
    · simp only [h0, if_false, List.map_cons]
      rw [List.nodup_cons]
      refine ⟨?_, ih (r0.href :: seen)⟩
      intro hmem
      obtain ⟨r, hr, he⟩ := List.mem_map.mp hmem
      exact (dedup_aux_not_seen rest (r0.href :: seen) r hr) (he ▸ List.mem_cons_self _ _)

theorem dedup_aux_complete :
    ∀ (rs : List RawText) (seen : List (Option String)) (r : RawText),
      r ∈ rs →
      r.href ∈ seen ∨ ∃ r2, r2 ∈ dedup_href_aux seen rs ∧ r2.href = r.href := by
  intro rs
  induction rs with
  | nil => intro seen r h; simp at h
  | cons r0 rest ih =>
    intro seen r h
    by_cases h0 : r0.href ∈ seen
    · have heq : dedup_href_aux seen (r0 :: rest) = dedup_href_aux seen rest := by
        simp [dedup_href_aux, h0]
      rw [heq]
      rcases List.mem_cons.mp h with he | hm
      · left; rw [he]; exact h0
      · exact ih seen r hm
    · have heq : dedup_href_aux seen (r0 :: rest) =
          r0 :: dedup_href_aux (r0.href :: seen) rest := by
        simp [dedup_href_aux, h0]
      rw [heq]
      rcases List.mem_cons.mp h with he | hm
      · right; exact ⟨r0, List.mem_cons_self _ _, by rw [he]⟩
      · rcases ih (r0.href :: seen) r hm with hseen | ⟨r2, h2, he2⟩
        · rcases List.mem_cons.mp hseen with he | hs
          · right; exact ⟨r0, List.mem_cons_self _ _, he.symm⟩
          · left; exact hs
        · right; exact ⟨r2, List.mem_cons_of_mem _ h2, he2⟩

theorem nodup_map_filter_len_le_one {α β : Type} [DecidableEq β] (f : α → β) (v : β) :
    ∀ (l : List α), (l.map f).Nodup →
      (l.filter (fun x => decide (f x = v))).length ≤ 1 := by
  intro l
  induction l with
  | nil => intro _; simp
  | cons x xs ih =>
    intro hnd
    rw [List.map_cons, List.nodup_cons] at hnd
    by_cases hfx : f x = v
    · have hnil : xs.filter (fun y => decide (f y = v)) = [] := by
        rw [List.filter_eq_nil_iff]
        intro y hy
        simp only [decide_eq_true_eq]
        intro he
        exact hnd.1 (List.mem_map.mpr ⟨y, hy, by rw [he, hfx]⟩)
      rw [List.filter_cons_of_pos (by simp [hfx]), hnil]
      simp
    · rw [List.filter_cons_of_neg (by simp [hfx])]
      exact ih hnd.2

/-- C4.  Evidence post-processing (llm.py lines 106-114): the result is
the href-deduplicated list truncated to 10 — it has at most 10 items, is
an order-preserving subsequence of the concatenated batches, carries
pairwise-distinct hrefs, every kept item is the first occurrence of its
href in batch-issue order, and every incoming href is represented in the
deduplicated list. -/
theorem c4_dedup_and_cap (search_results : List RawText) :
    (web_search_post search_results).length ≤ 10
    ∧ (dedup_href search_results).Sublist search_results
    ∧ ((dedup_href search_results).map RawText.href).Nodup
    ∧ (∀ r ∈ dedup_href search_results,
        search_results.find? (fun x => decide (x.href = r.href)) = some r)
    ∧ (∀ r ∈ search_results,
        ∃ r2, r2 ∈ dedup_href search_results ∧ r2.href = r.href)
    ∧ web_search_post search_results = (dedup_href search_results).take 10 := by
  refine ⟨?_, dedup_aux_sublist search_results [],
    dedup_aux_nodup search_results [],
    fun r hr => dedup_aux_find search_results [] r hr,
    fun r hr => ?_, rfl⟩
  · unfold web_search_post
    rw [List.length_take]
    exact Nat.min_le_left _ _
  · rcases dedup_aux_complete search_results [] r hr with hseen | hex
    · simp at hseen
    · exact hex

def rt_a : RawText := { title := some "A", body := none, href := some "https://x" }
def rt_b : RawText := { title := some "B", body := none, href := some "https://x" }
def rt_c : RawText := { title := some "C", body := none, href := some "https://y" }

/-- Witness for C4: with a duplicated href across batches, the kept item
is the first occurrence in concatenation order. -/
theorem c4_dedup_and_cap_witness :
    [rt_a, rt_b, rt_c].find? (fun x => decide (x.href = rt_a.href)) = some rt_a :=
  (c4_dedup_and_cap [rt_a, rt_b, rt_c]).2.2.2.1 rt_a (by decide)

/-- C9.  Deduplication keys on the `.get("href")` value including an
absent one: all href-less results share the single identity `None`, so
the final retrieval result set holds at most one href-less item, and any
href-less survivor is the first href-less result in concatenation
order. -/
theorem c9_missing_href_identity (search_results : List RawText) :
    ((web_search_post search_results).filter
        (fun r => decide (r.href = none))).length ≤ 1
    ∧ ∀ r ∈ web_search_post search_results, r.href = none →
        search_results.find? (fun x => decide (x.href = none)) = some r := by
  constructor
  · have hsub : (web_search_post search_results).filter (fun r => decide (r.href = none))
        |>.Sublist ((dedup_href search_results).filter (fun r => decide (r.href = none))) :=
      (List.take_sublist 10 (dedup_href search_results)).filter _
    exact le_trans hsub.length_le
      (nodup_map_filter_len_le_one RawText.href none (dedup_href search_results)
        (dedup_aux_nodup search_results []))
  · intro r hr hnone
    have hmem : r ∈ dedup_href search_results :=
      List.take_subset 10 (dedup_href search_results) hr
    have := dedup_aux_find search_results [] r hmem
    rw [hnone] at this
    exact this

def rt_n1 : RawText := { title := some "N1", body := none, href := none }
def rt_n2 : RawText := { title := some "N2", body := none, href := none }

/-- Witness for C9: with two href-less results, the survivor is the first
href-less item of the concatenation. -/
theorem c9_missing_href_identity_witness :
    [rt_c, rt_n1, rt_n2].find? (fun x => decide (x.href = none)) = some rt_n1 :=
  (c9_missing_href_identity [rt_c, rt_n1, rt_n2]).2 rt_n1 (by decide) rfl

/-! ### Helper lemmas: the image projection -/

theorem enumFrom_get? {α : Type} :
    ∀ (l : List α) (n i : Nat),
      (List.enumFrom n l).get? i = (l.get? i).map (fun a => (n + i, a)) := by
  intro l
  induction l with
  | nil => intro n i; simp
  | cons a as ih =>
    intro n i
    cases i with
    | zero => simp
    | succ i =>
      rw [List.enumFrom_cons]
      simp only [List.get?_cons_succ]
      rw [ih (n + 1) i]
      have harith : n + 1 + i = n + (i + 1) := by omega
      rw [harith]

theorem process_images_get? (query : String) (main_images : List RawImage)
    (i : Nat) :
    (process_images query main_images).get? i
      = ((main_images.take 4).get? i).map (fun img =>
          { id := i + 1, url := img.image,
            title := img.title.getD ("Image related to " ++ query),
            source := img.url.getD "" }) := by
  unfold process_images List.enum
  rw [List.get?_map, enumFrom_get? (main_images.take 4) 0 i, Option.map_map]
  have : (0 : Nat) + i = i := by omega
  rw [this]
  rfl

theorem process_images_length (query : String) (main_images : List RawImage) :
    (process_images query main_images).length = min main_images.length 4 := by
  unfold process_images List.enum
  rw [List.length_map, List.enumFrom_length, List.length_take, Nat.min_comm]

theorem enumFrom_map_fst_succ {α : Type} :
    ∀ (l : List α) (n : Nat),
      (List.enumFrom n l).map (fun p => p.1 + 1) = List.range' (n + 1) l.length := by
  intro l
  induction l with
  | nil => intro n; simp
  | cons a as ih =>
    intro n
    rw [List.enumFrom_cons, List.map_cons, List.length_cons, List.range'_succ, ih (n + 1)]

theorem process_images_map_id (query : String) (main_images : List RawImage) :
    (process_images query main_images).map ImageRecord.id
      = List.range' 1 (min main_images.length 4) := by
  unfold process_images List.enum
  rw [List.map_map]
  have : (ImageRecord.id ∘ fun p : Nat × RawImage =>
      ({ id := p.1 + 1, url := p.2.image,
         title := p.2.title.getD ("Image related to " ++ query),
         source := p.2.url.getD "" } : ImageRecord)) = fun p => p.1 + 1 := rfl
  rw [this, enumFrom_map_fst_succ (main_images.take 4) 0, List.length_take, Nat.min_comm]

/-- C5.  Image retrieval projects at most the first 4 concatenated raw
results into ImageRecords: the output has `min (input length) 4` records,
their ids are exactly `1, 2, ..., N` densely in input order, and the
record at position `i` carries the `i`-th raw result's `image` url, its
title defaulted to `"Image related to \x7bquery\x7d"`, and its source
defaulted to the empty string. -/
theorem c5_image_projection (query : String) (main_images : List RawImage) :
    (process_images query main_images).length = min main_images.length 4
    ∧ (process_images query main_images).map ImageRecord.id
        = List.range' 1 (min main_images.length 4)
    ∧ ∀ i : Nat, (process_images query main_images).get? i
        = ((main_images.take 4).get? i).map (fun img =>
            { id := i + 1, url := img.image,
              title := img.title.getD ("Image related to " ++ query),
              source := img.url.getD "" }) :=
  ⟨process_images_length query main_images,
   process_images_map_id query main_images,
   fun i => process_images_get? query main_images i⟩

def ri_1 : RawImage := { title := some "T1", image := some "u1", url := some "p1" }
def ri_2 : RawImage := { title := none, image := some "u2", url := none }
def ri_3 : RawImage := { title := some "T3", image := none, url := some "p3" }
def ri_4 : RawImage := { title := some "T4", image := some "u4", url := some "p4" }
def ri_5 : RawImage := { title := some "T5", image := some "u5", url := some "p5" }

example :
    (process_images "q" [ri_1, ri_2, ri_3, ri_4, ri_5]).map ImageRecord.id
      = [1, 2, 3, 4] := rfl
example :
    process_images "q" [ri_2]
      = [{ id := 1, url := some "u2", title := "Image related to q", source := "" }] := rfl

/-- C10.  A raw image result lacking the `image` key yields an ImageRecord
whose `url` is `None` (no default is applied, unlike `title` and
`source`); the record still counts toward the 4-record cap, and
placeholder substitution renders it as `![title](None)`. -/
theorem c10_url_none (query : String) (main_images : List RawImage) (i : Nat)
    (img : RawImage) (h1 : (main_images.take 4).get? i = some img)
    (h2 : img.image = none) :
    (process_images query main_images).length = min main_images.length 4
    ∧ (process_images query main_images).get? i = some
        { id := i + 1, url := none,
          title := img.title.getD ("Image related to " ++ query),
          source := img.url.getD "" }
    ∧ (∀ rec : ImageRecord, rec.url = none →
        image_markdown rec = "![" ++ rec.title ++ "](None)")
    ∧ substitute_images "see ![IMAGE 1](image_url_1) here"
        [{ id := 1, url := none, title := "T", source := "" }]
      = "see ![T](None) here" := by
  refine ⟨process_images_length query main_images, ?_, ?_, rfl⟩
  · rw [process_images_get? query main_images i, h1]
    simp only [Option.map_some']
    rw [h2]
  · intro rec hurl
    unfold image_markdown
    rw [hurl]
    simp only [py_str_opt, String.append_assoc]
    congr 1

/-- Witness for C10: a single raw result with no `image` key produces a
record with a `None` url at position 0. -/
theorem c10_url_none_witness :
    (process_images "q" [ri_3]).length = min 1 4
    ∧ (process_images "q" [ri_3]).get? 0 = some
        { id := 1, url := none, title := "T3", source := "p3" }
    ∧ (∀ rec : ImageRecord, rec.url = none →
        image_markdown rec = "![" ++ rec.title ++ "](None)")
    ∧ substitute_images "see ![IMAGE 1](image_url_1) here"
        [{ id := 1, url := none, title := "T", source := "" }]
      = "see ![T](None) here" :=
  c10_url_none "q" [ri_3] 0 ri_3 rfl rfl

/-! ### Helper lemmas: evidence-search issuance -/

def is_obj : Json → Bool
  | Json.obj _ => true
  | _ => false

/-- The headline string a topic contributes to its specific query
(`topic.get("headline", "")` interpolated into the f-string). -/
def topic_headline (t : Json) : String :=
  match t with
  | Json.obj kvs => py_str (jLookupD kvs "headline" (Json.str ""))
  | _ => ""

theorem topic_batches_eq (ts : String → Nat → List RawText) (query : String) :
    ∀ (l : List Json), (∀ t ∈ l, is_obj t = true) →
      topic_batches ts query l
        = .ok (l.flatMap (fun t => ts (query ++ " " ++ topic_headline t) 2)) := by
  intro l
  induction l with
  | nil => intro _; rfl
  | cons t rest ih =>
    intro h
    have ht := h t (List.mem_cons_self _ _)
    cases t with
    | obj kvs =>
      unfold topic_batches
      simp only [py_dict_getD]
      rw [ih (fun t' ht' => h t' (List.mem_cons_of_mem _ ht'))]
      rfl
    | null => simp [is_obj] at ht
    | bool b => simp [is_obj] at ht
    | num n => simp [is_obj] at ht
    | str s => simp [is_obj] at ht
    | arr xs => simp [is_obj] at ht

theorem web_search_raw_eq (ts : String → Nat → List RawText) (query : String)
    (kvs : List (String × Json)) (topics : List Json)
    (hT : jLookupD kvs "topics" (Json.arr []) = Json.arr topics)
    (hO : ∀ t ∈ topics.take 3, is_obj t = true) :
    web_search_raw ts query (Json.obj kvs)
      = .ok (ts query 5 ++
          (topics.take 3).flatMap (fun t => ts (query ++ " " ++ topic_headline t) 2)) := by
  unfold web_search_raw
  simp only [py_dict_getD, hT, py_slice_iter]
  rw [topic_batches_eq ts query (topics.take 3) hO]

/-- C6.  For every query and outline whose `topics` (defaulted to `[]`) is
an array of objects, evidence retrieval issues exactly one text search for
the raw query capped at 5 results, then one text search per topic for the
first 3 topics, each with query `"\x7bquery\x7d \x7bheadline\x7d"` capped
at 2 results, and concatenates the batches in issue order (main query
first, then topics in outline order). -/
theorem c6_search_issuance (ts : String → Nat → List RawText) (query : String)
    (kvs : List (String × Json)) (topics : List Json)
    (hT : jLookupD kvs "topics" (Json.arr []) = Json.arr topics)
    (hO : ∀ t ∈ topics.take 3, is_obj t = true) :
    web_search_raw ts query (Json.obj kvs)
      = .ok (ts query 5 ++
          (topics.take 3).flatMap (fun t => ts (query ++ " " ++ topic_headline t) 2)) :=
  web_search_raw_eq ts query kvs topics hT hO

def ts_w : String → Nat → List RawText :=
  fun q n => [{ title := some q, body := none, href := some (toString n) }]

def topics_w : List Json :=
  [Json.obj [("headline", Json.str "A")], Json.obj [("headline", Json.str "B")],
   Json.obj [], Json.obj [("headline", Json.str "D")]]

def kvs_w : List (String × Json) := [("topics", Json.arr topics_w)]

/-- Witness for C6: four topics, of which only the first three are
searched; the collaborator records each issued query and cap. -/
theorem c6_search_issuance_witness :
    web_search_raw ts_w "q" (Json.obj kvs_w)
      = .ok (ts_w "q" 5 ++
          (topics_w.take 3).flatMap (fun t => ts_w ("q" ++ " " ++ topic_headline t) 2)) :=
  c6_search_issuance ts_w "q" kvs_w topics_w rfl (by decide)

example :
    web_search_raw ts_w "q" (Json.obj kvs_w)
      = .ok [{ title := some "q", body := none, href := some "5" },
             { title := some "q A", body := none, href := some "2" },
             { title := some "q B", body := none, href := some "2" },
             { title := some "q ", body := none, href := some "2" }] := rfl

/-! ### C7: schema validation is a soft gate -/

/-- C7.  When the parsed outline does not conform to the declared JSON
Schema, the pipeline is not blocked: `generate_headlines` still returns
the parsed candidate unchanged — the validation outcome (`SchemaViolation`)
is only logged and never turns a successful parse into a failure. -/
theorem c7_soft_validation (gen : String → String) (query : String) (j : Json)
    (hparse : parse_response (gen (outline_prompt query)) = .ok j)
    (_hnc : conforms_outline j = false) :
    generate_headlines gen query = .ok j := by
  unfold generate_headlines
  rw [hparse]

def gen_bad : String → String := fun _ => "\x7b\"x\": 1\x7d"

/-- Witness for C7: a response violating the schema (no `main_headline`,
no `topics`) is still returned as the outline. -/
theorem c7_soft_validation_witness :
    generate_headlines gen_bad "photosynthesis" = .ok (Json.obj [("x", Json.num 1)]) :=
  c7_soft_validation gen_bad "photosynthesis" (Json.obj [("x", Json.num 1)]) rfl rfl

/-! ### C1: the outline parse-recovery strategy -/

/-- C1 counterexample.  On a response whose ```json fence holds garbage
while an earlier plain fence holds valid JSON, the code fails (the
claimed strategy-(c) fallback never runs), while the spec's four-attempt
first-success chain would succeed. -/
theorem c1_counterexample :
    except_is_ok (parse_response c1_cex_text) = false
    ∧ parse_response_spec c1_cex_text = .ok (Json.obj [("a", Json.num 1)]) :=
  ⟨rfl, rfl⟩

/-- C1 as amended.  Outline parsing first tries the raw response text; on
a parse error it selects a single candidate — the interior of the fenced
block tagged as JSON if present, else the interior of the first fenced
block if present, else the raw text — and makes exactly one further parse
attempt on it, whose failure is fatal (`MalformedOutlineError`) with no
fall-through to later strategies. -/
theorem c1_parse_single_fallback (text : String) :
    (except_is_ok (json_loads_err text) = false →
      parse_response text = json_loads_err (extract_candidate text))
    ∧ ∀ j : Json, parse_response text = .ok j ↔
        (json_loads_err text = .ok j ∨
          (except_is_ok (json_loads_err text) = false ∧
            json_loads_err (extract_candidate text) = .ok j)) := by
  unfold parse_response
  cases h : json_loads_err text with
  | ok j0 =>
    constructor
    · intro hfalse
      simp [except_is_ok] at hfalse
    · intro j
      constructor
      · intro he
        left
        exact he
      · rintro (he | ⟨hf, _⟩)
        · exact he
        · simp [except_is_ok] at hf
  | error e =>
    constructor
    · intro _
      rfl
    · intro j
      constructor
      · intro he
        right
        exact ⟨rfl, he⟩
      · rintro (he | ⟨_, he⟩)
        · exact absurd he (by simp)
        · exact he

/-- Witness for C1 (amended): on a non-JSON response the result is the
single parse of the extracted candidate. -/
theorem c1_parse_single_fallback_witness :
    parse_response "not json" = json_loads_err (extract_candidate "not json") :=
  (c1_parse_single_fallback "not json").1 rfl

/-! ### C2: defensiveness of the downstream stages -/

/-- Well-typedness of one topic value as the downstream stages meet it:
an object whose `subtopics`, when present, is an array (every other field
may be absent). -/
def topic_fields_ok (t : Json) : Bool :=
  match t with
  | Json.obj kvs =>
    (match jLookup kvs "subtopics" with
     | none => true
     | some (Json.arr _) => true
     | some _ => false)
  | _ => false

/-- Well-typedness of an outline for the amended C2: an object that does
carry `main_headline` (of any type) and whose `topics` (defaulted to `[]`)
is an array of well-typed topics.  `headline` and `subtopics` may be
absent everywhere. -/
def outline_fields_ok (j : Json) : Bool :=
  match j with
  | Json.obj kvs =>
    (jLookup kvs "main_headline").isSome &&
    (match jLookupD kvs "topics" (Json.arr []) with
     | Json.arr ts => ts.all topic_fields_ok
     | _ => false)
  | _ => false

theorem topic_fields_ok_is_obj {t : Json} (h : topic_fields_ok t = true) :
    is_obj t = true := by
  cases t
  case obj kvs => rfl
  all_goals simp [topic_fields_ok] at h

theorem image_batches_ok (isrch : String → Nat → List RawImage) (query : String) :
    ∀ (l : List Json), (∀ t ∈ l, is_obj t = true) →
      except_is_ok (image_batches isrch query l) = true := by
  intro l
  induction l with
  | nil => intro _; rfl
  | cons t rest ih =>
    intro h
    have ht := h t (List.mem_cons_self _ _)
    cases t with
    | obj kvs =>
      unfold image_batches
      simp only [py_dict_getD]
      have hr := ih (fun t' ht' => h t' (List.mem_cons_of_mem _ ht'))
      cases hrest : image_batches isrch query rest with
      | ok more => rfl
      | error e => rw [hrest] at hr; simp [except_is_ok] at hr
    | null => simp [is_obj] at ht
    | bool b => simp [is_obj] at ht
    | num n => simp [is_obj] at ht
    | str s => simp [is_obj] at ht
    | arr xs => simp [is_obj] at ht

theorem topic_lines_ok :
    ∀ (l : List Json) (i : Nat), (∀ t ∈ l, topic_fields_ok t = true) →
      except_is_ok (topic_lines i l) = true := by
  intro l
  induction l with
  | nil => intro i _; rfl
  | cons t rest ih =>
    intro i h
    have ht := h t (List.mem_cons_self _ _)
    cases t with
    | obj kvs =>
      unfold topic_lines
      simp only [py_dict_getD]
      obtain ⟨xs, hxs⟩ :
          ∃ xs, py_iter (jLookupD kvs "subtopics" (Json.arr [])) = .ok xs := by
        simp only [topic_fields_ok] at ht
        unfold jLookupD
        cases hs : jLookup kvs "subtopics" with
        | none => exact ⟨[], rfl⟩
        | some v =>
          rw [hs] at ht
          cases v with
          | arr ys => exact ⟨ys, rfl⟩
          | null => simp at ht
          | bool b => simp at ht
          | num n => simp at ht
          | str s => simp at ht
          | obj o => simp at ht
      rw [hxs]
      have hr := ih (i + 1) (fun t' ht' => h t' (List.mem_cons_of_mem _ ht'))
      cases hrest : topic_lines (i + 1) rest with
      | ok more => rfl
      | error e => rw [hrest] at hr; simp [except_is_ok] at hr
    | null => simp [topic_fields_ok] at ht
    | bool b => simp [topic_fields_ok] at ht
    | num n => simp [topic_fields_ok] at ht
    | str s => simp [topic_fields_ok] at ht
    | arr xs => simp [topic_fields_ok] at ht

/-- C2 counterexample.  An outline with no `main_headline` (here
`\x7b"topics": []\x7d`) makes the image-retrieval stage fail with a
KeyError, because llm.py line 118/122 indexes `headlines["main_headline"]`
directly instead of using default-on-missing-field access. -/
theorem c2_counterexample :
    retrieve_images (fun _ _ => []) "photosynthesis"
        (Json.obj [("topics", Json.arr [])])
      = .error (Err.keyError "main_headline") := rfl

/-- C2 as amended.  For every outline whose present fields are well-typed
and that does carry `main_headline` — while `topics`, any topic's
`headline`, and any topic's `subtopics` may be absent — the
evidence-retrieval, image-retrieval and content-synthesis stages all
succeed (missing sequences are treated as empty).  The exception forced by
the counterexample: image retrieval accesses `main_headline` by direct
indexing, so that one field must be present for it not to fail. -/
theorem c2_defensive_amended (ts : String → Nat → List RawText)
    (isrch : String → Nat → List RawImage) (gen : String → String)
    (query : String) (ev : List RawText) (imgs : List ImageRecord)
    (j : Json) (h : outline_fields_ok j = true) :
    except_is_ok (web_search ts query j) = true
    ∧ except_is_ok (retrieve_images isrch query j) = true
    ∧ except_is_ok (generate_course_content gen query j ev imgs) = true := by
  cases j with
  | obj kvs =>
    unfold outline_fields_ok at h
    rw [Bool.and_eq_true] at h
    obtain ⟨hmh, hts⟩ := h
    obtain ⟨topics, hT, hall⟩ :
        ∃ ts', jLookupD kvs "topics" (Json.arr []) = Json.arr ts'
          ∧ ts'.all topic_fields_ok = true := by
      cases hJ : jLookupD kvs "topics" (Json.arr []) with
      | arr ts' => rw [hJ] at hts; exact ⟨ts', rfl, hts⟩
      | null => rw [hJ] at hts; simp at hts
      | bool b => rw [hJ] at hts; simp at hts
      | num n => rw [hJ] at hts; simp at hts
      | str s => rw [hJ] at hts; simp at hts
      | obj o => rw [hJ] at hts; simp at hts
    obtain ⟨mh, hmh'⟩ := Option.isSome_iff_exists.mp hmh
    have hallP : ∀ t ∈ topics, topic_fields_ok t = true :=
      fun t htm => List.all_eq_true.mp hall t htm
    refine ⟨?_, ?_, ?_⟩
    · unfold web_search
      rw [web_search_raw_eq ts query kvs topics hT
        (fun t htm => topic_fields_ok_is_obj (hallP t (List.take_subset 3 topics htm)))]
      rfl
    · unfold retrieve_images
      simp only [py_dict_index, py_dict_getD, py_slice_iter, hmh', hT]
      have hib := image_batches_ok isrch query (topics.take 2)
        (fun t htm => topic_fields_ok_is_obj (hallP t (List.take_subset 2 topics htm)))
      cases hibe : image_batches isrch query (topics.take 2) with
      | ok more => rfl
      | error e => rw [hibe] at hib; simp [except_is_ok] at hib
    · unfold generate_course_content headlines_content
      simp only [py_dict_getD, hT, py_iter]
      have htl := topic_lines_ok topics 0 hallP
      cases htle : topic_lines 0 topics with
      | ok s => rfl
      | error e => rw [htle] at htl; simp [except_is_ok] at htl
  | null => simp [outline_fields_ok] at h
  | bool b => simp [outline_fields_ok] at h
  | num n => simp [outline_fields_ok] at h
  | str s => simp [outline_fields_ok] at h
  | arr xs => simp [outline_fields_ok] at h

def j_w : Json :=
  Json.obj [("main_headline", Json.str "Photosynthesis Basics"),
            ("topics", Json.arr [Json.obj [("headline", Json.str "Light Reactions")],
                                 Json.obj []])]

def ts_0 : String → Nat → List RawText := fun _ _ => []
def is_0 : String → Nat → List RawImage := fun _ _ => []
def gen_0 : String → String := fun _ => "course text"

/-- Witness for C2 (amended): an outline whose first topic lacks
`subtopics` and whose second topic lacks every field passes all three
stages. -/
theorem c2_defensive_amended_witness :
    except_is_ok (web_search ts_0 "q" j_w) = true
    ∧ except_is_ok (retrieve_images is_0 "q" j_w) = true
    ∧ except_is_ok (generate_course_content gen_0 "q" j_w [] []) = true :=
  c2_defensive_amended ts_0 is_0 gen_0 "q" [] [] j_w rfl

/-! ### C8: the orchestrator's frame -/

/-- C8.  Whenever a pipeline run succeeds, the output's `query` field is
the caller's input verbatim, its `headlines` and `images` fields are
exactly the values produced by the outline-generation and image-retrieval
stages (content synthesis leaves them untouched), and `course_content` is
exactly the synthesis stage's single placeholder-substitution rewrite of
the model response. -/
theorem c8_frame (gen : String → String) (ts : String → Nat → List RawText)
    (isrch : String → Nat → List RawImage) (query : String)
    (out : CourseOutput) (h : process_query gen ts isrch query = .ok out) :
    out.query = query
    ∧ generate_headlines gen query = .ok out.headlines
    ∧ retrieve_images isrch query out.headlines = .ok out.images
    ∧ ∃ ev, web_search ts query out.headlines = .ok ev
        ∧ generate_course_content gen query out.headlines ev out.images
            = .ok out.course_content := by
  unfold process_query at h
  cases hg : generate_headlines gen query with
  | error e => simp [hg] at h
  | ok headlines =>
    simp only [hg] at h
    cases hw : web_search ts query headlines with
    | error e => simp [hw] at h
    | ok ev =>
      simp only [hw] at h
      cases hi : retrieve_images isrch query headlines with
      | error e => simp [hi] at h
      | ok images =>
        simp only [hi] at h
        cases hc : generate_course_content gen query headlines ev images with
        | error e => simp [hc] at h
        | ok content =>
          simp only [hc, Except.ok.injEq] at h
          rw [← h]
          exact ⟨rfl, rfl, hi, ev, hw, hc⟩

def gen_w : String → String := fun _ => "\x7b\"main_headline\": \"X\", \"topics\": []\x7d"

def out_w : CourseOutput :=
  { query := "q",
    headlines := Json.obj [("main_headline", Json.str "X"), ("topics", Json.arr [])],
    course_content := "\x7b\"main_headline\": \"X\", \"topics\": []\x7d",
    images := [] }

/-- Witness for C8: a full concrete pipeline run whose output fields are
exactly the stage outputs. -/
theorem c8_frame_witness :
    out_w.query = "q"
    ∧ generate_headlines gen_w "q" = .ok out_w.headlines
    ∧ retrieve_images is_0 "q" out_w.headlines = .ok out_w.images
    ∧ ∃ ev, web_search ts_0 "q" out_w.headlines = .ok ev
        ∧ generate_course_content gen_w "q" out_w.headlines ev out_w.images
            = .ok out_w.course_content :=
  c8_frame gen_w ts_0 is_0 "q" out_w rfl
